import Mathlib

/-
Verification development of the retryable HTTP client (package retryable).
The Go source is shallowly embedded: byte streams become explicit state
values, the transport and the date parser become oracles, durations are
64-bit nanosecond counts modelled as integers with explicit wrapping, and
floating point policy scalars are modelled as rationals.
-/

namespace Retryable

/-- A concrete failure, wrapping exactly one of the two sentinel errors
ErrRetryable and ErrNonRetryable, together with the formatted message. -/
inductive DoError where
  | retryable (msg : String)
  | nonRetryable (msg : String)


/-- Models errors.Is(err, ErrRetryable): every produced error wraps exactly
one sentinel. -/
def DoError.isRetryable : DoError → Bool
  | .retryable _ => true
  | .nonRetryable _ => false

/-- A deterministic byte stream: reading yields content and then either EOF
(failAtEnd = false) or a read error (failAtEnd = true). -/
structure ByteStream where
  content : List Nat
  failAtEnd : Bool


/-- A request or response body: either the original live stream handed over
by the caller or transport, or the in-memory reader (NopCloser over a
bytes.Reader) installed by the preparation code. -/
inductive Body where
  | stream (s : ByteStream)
  | buffer (bytes : List Nat)


/-- Reading from an in-memory reader behaves as a clean stream. -/
def Body.toStream : Body → ByteStream
  | .stream s => s
  | .buffer bytes => ⟨bytes, false⟩

/-- io.ReadAll over the reader, wrapped in io.LimitReader when a limit is
present. A LimitReader stops after the limit without touching the
underlying reader again, so an error located past the limit stays pending
in the leftover stream. -/
def readAllLim (limit : Option Nat) (s : ByteStream) :
    Except Unit (List Nat) × ByteStream :=
  match limit with
  | none =>
      if s.failAtEnd then (.error (), ⟨[], false⟩)
      else (.ok s.content, ⟨[], false⟩)
  | some n =>
      if n ≤ s.content.length then
        (.ok (s.content.take n), ⟨s.content.drop n, s.failAtEnd⟩)
      else if s.failAtEnd then (.error (), ⟨[], false⟩)
      else (.ok s.content, ⟨[], false⟩)

/-- io.Copy(io.Discard, body): drains the remaining stream, returning the
number of bytes drained, or the pending read error. -/
def drainStream (s : ByteStream) : Except Unit Nat × ByteStream :=
  if s.failAtEnd then (.error (), ⟨[], false⟩)
  else (.ok s.content.length, ⟨[], false⟩)

/-- The client configuration (struct Client). Durations are nanosecond
counts; the floating point multiplier and jitter fractions are rationals. -/
structure Client where
  RetryStatus : List Int
  RetryCount : Int
  RetryDelay : Int
  RetryMultiplier : Rat
  RetryJitter : Rat
  RetryTimeout : Int
  RequestDelay : Int
  RequestJitter : Rat
  RequestTimeout : Int
  RequestSize : Int
  ResponseSize : Int


/-- An HTTP response: status code, the Retry-After header (none models both
a nil header map and an absent key, which http.Header.Get folds to the
empty string), content length, and the body (none models a nil body). -/
structure Response where
  statusCode : Int
  retryAfter : Option String
  contentLength : Int
  body : Option Body


/-- Message of fmt.Errorf("...: invalid status code (%d)", code). -/
def statusMsg (code : Int) : String :=
  "invalid status code (" ++ toString code ++ ")"

/-- Message of fmt.Errorf("...: response size exceeded (%d)", size). -/
def responseSizeMsg (size : Int) : String :=
  "response size exceeded (" ++ toString size ++ ")"

/-- Message of fmt.Errorf("...: request size exceeded (%d)", size). -/
def requestSizeMsg (size : Int) : String :=
  "request size exceeded (" ++ toString size ++ ")"

/-- The effective io.LimitReader bound for a size ceiling: applied only when
the ceiling is positive. -/
def limitOf (ceiling : Int) : Option Nat :=
  if 0 < ceiling then some ceiling.toNat else none

/-- Outcome of prepareResponseBody: the error (if any), the updated
response, and how many times the original body stream was closed. -/
structure RespPrepResult where
  err : Option DoError
  resp : Response
  closedOrig : Nat


/-- prepareResponseBody: closes the original body exactly once (deferred at
entry), reads the body up to the response size ceiling, replaces the body
with an in-memory reader over the captured bytes (deferred only after a
successful read), drains the remainder, then validates the status code and
the response size, in that order. -/
def prepareResponseBody (client : Client) (response : Response) (body : Body) :
    RespPrepResult :=
  match readAllLim (limitOf client.ResponseSize) body.toStream with
  | (.error _, s1) =>
      ⟨some (.retryable "unable to read response body"),
       { response with body := some (.stream s1) }, 1⟩
  | (.ok buffer, s1) =>
      let response1 : Response :=
        { response with contentLength := buffer.length, body := some (.buffer buffer) }
      match drainStream s1 with
      | (.error _, _) =>
          ⟨some (.retryable "unable to discard response body"), response1, 1⟩
      | (.ok drained, _) =>
          if response.statusCode ∈ client.RetryStatus then
            ⟨some (.retryable (statusMsg response.statusCode)), response1, 1⟩
          else if 400 ≤ response.statusCode then
            ⟨some (.nonRetryable (statusMsg response.statusCode)), response1, 1⟩
          else
            let size : Int := (drained : Int) + client.ResponseSize
            if 0 < client.ResponseSize ∧ client.ResponseSize < size then
              ⟨some (.nonRetryable (responseSizeMsg size)), response1, 1⟩
            else ⟨none, response1, 1⟩

/-- Recognizes a body that has been replaced by the in-memory reader. -/
def isBufferBody : Option Body → Bool
  | some (.buffer _) => true
  | _ => false

/-- A request body regeneration capability (http.Request.GetBody): either
the closure installed by prepareRequestBody, which always returns a fresh
reader over the captured buffer, or a caller-supplied capability whose
successive invocations may return different contents or fail. -/
inductive BodyCap where
  | installed (bytes : List Nat)
  | custom (results : Nat → Except Unit (List Nat))

/-- Invoking a regeneration capability for the n-th time. -/
def invokeCap : BodyCap → Nat → Except Unit (List Nat)
  | .installed bytes, _ => .ok bytes
  | .custom f, n => f n

/-- An HTTP request: body (none models nil), regeneration capability (none
models a nil GetBody), and content length. -/
structure Request where
  body : Option Body
  getBody : Option BodyCap
  contentLength : Int

/-- Outcome of prepareRequestBody: the error (if any), the updated request
(none when the request itself was nil), and how many times the original
body stream was closed. -/
structure ReqPrepResult where
  err : Option DoError
  req : Option Request
  closedOrig : Nat

/-- prepareRequestBody: rejects a nil request; is a no-op when the body is
nil or GetBody is already set; otherwise reads the body up to the request
size ceiling, then (deferred) closes the original stream once and installs
the in-memory body, the content length, and the regeneration capability,
then drains the remainder and validates the total size. A failure of the
initial read happens before the deferred replacement is registered, so it
leaves the request unmodified and the original stream unclosed. -/
def prepareRequestBody (client : Client) (request : Option Request) :
    ReqPrepResult :=
  match request with
  | none => ⟨some (.nonRetryable "invalid request"), none, 0⟩
  | some req =>
      match req.body, req.getBody with
      | none, _ => ⟨none, some req, 0⟩
      | some _, some _ => ⟨none, some req, 0⟩
      | some b, none =>
          match readAllLim (limitOf client.RequestSize) b.toStream with
          | (.error _, s1) =>
              ⟨some (.nonRetryable "unable to read request body"),
               some { req with body := some (.stream s1) }, 0⟩
          | (.ok buffer, s1) =>
              let req1 : Request :=
                ⟨some (.buffer buffer), some (.installed buffer), (buffer.length : Int)⟩
              match drainStream s1 with
              | (.error _, _) =>
                  ⟨some (.nonRetryable "unable to discard request body"), some req1, 1⟩
              | (.ok drained, _) =>
                  let size : Int := (drained : Int) + client.RequestSize
                  if 0 < client.RequestSize ∧ client.RequestSize < size then
                    ⟨some (.nonRetryable (requestSizeMsg size)), some req1, 1⟩
                  else ⟨none, some req1, 1⟩

/-- Go strconv.ParseInt(s, 10, 64): an optional sign followed by at least
one ASCII digit, with the value required to fit in a signed 64-bit
integer; anything else (including the empty string) is an error. -/
def parseInt64 (s : String) : Option Int :=
  match s.toList with
  | [] => none
  | c :: rest =>
      let neg : Bool := c = '-'
      let ds : List Char := if c = '-' ∨ c = '+' then rest else c :: rest
      if ds = [] then none
      else if ds.all Char.isDigit then
        let v : Int := (ds.foldl (fun acc d => acc * 10 + (d.toNat - 48)) 0 : Nat)
        let iv : Int := if neg then -v else v
        if -(2 ^ 63) ≤ iv ∧ iv ≤ 2 ^ 63 - 1 then some iv else none
      else none

/-- Signed 64-bit two's-complement wrapping, as Go integer arithmetic. -/
def wrap64 (n : Int) : Int := (n + 2 ^ 63) % 2 ^ 64 - 2 ^ 63

/-- parseRetryDelay: nil response or nil/absent/empty Retry-After header
gives no directive (0); an integer header gives that many seconds as a Go
duration (64-bit nanoseconds); otherwise an RFC 1123 date header gives
time.Until(date). The standard library date parser and the current instant
are oracles: parseDate returns the parsed date as a nanosecond instant. -/
def parseRetryDelay (parseDate : String → Option Int) (now : Int)
    (response : Option Response) : Int :=
  match response with
  | none => 0
  | some r =>
      match r.retryAfter with
      | none => 0
      | some header =>
          if header = "" then 0
          else
            match parseInt64 header with
            | some duration => wrap64 (duration * 1000000000)
            | none =>
                match parseDate header with
                | some date => date - now
                | none => 0

/-- A sleep request issued to the external delay provider: either
sleep.RandomJitterWithContext(duration, jitter) or
sleep.ExponentialBackoffWithContext(base, multiplier, jitter, attempt). -/
inductive SleepCmd where
  | fixedJitter (duration : Int) (jitter : Rat)
  | expBackoff (base : Int) (multiplier : Rat) (jitter : Rat) (attempt : Nat)


/-- applyRetryDelay: a positive parsed Retry-After delay is slept as a
fixed duration with zero jitter; otherwise an exponential backoff is
requested with the multiplier clamped below by 1. -/
def applyRetryDelay (client : Client) (parseDate : String → Option Int)
    (now : Int) (response : Option Response) (attempt : Nat) : SleepCmd :=
  let delay := parseRetryDelay parseDate now response
  if 0 < delay then .fixedJitter delay 0
  else .expBackoff client.RetryDelay (max client.RetryMultiplier 1)
    client.RetryJitter attempt

/-- The jitter-free nominal duration (in nanoseconds) of a sleep request,
per the delay provider contract. -/
def nominalSleep : SleepCmd → Rat
  | .fixedJitter d _ => (d : Rat)
  | .expBackoff b m _ a => (b : Rat) * m ^ a

/-- The jitter fraction of a sleep request. -/
def sleepJitter : SleepCmd → Rat
  | .fixedJitter _ j => j
  | .expBackoff _ _ j _ => j

/-- A transport-level send error, distinguished by its cause: the outer
bounded context ending (cancellation or deadline), the per-attempt timeout
firing, or any other network failure. -/
inductive SendErr where
  | outerCanceled
  | outerDeadline
  | attemptDeadline
  | network (msg : String)


/-- Whether errors.Is finds context.Canceled or context.DeadlineExceeded in
the send error: true for both the outer context and the per-attempt
timeout, since the code inspects only the error value. -/
def SendErr.wrapsCtxClass : SendErr → Bool
  | .outerCanceled => true
  | .outerDeadline => true
  | .attemptDeadline => true
  | .network _ => false

/-- The message of the underlying send error. -/
def SendErr.message : SendErr → String
  | .outerCanceled => "context canceled"
  | .outerDeadline => "context deadline exceeded"
  | .attemptDeadline => "context deadline exceeded"
  | .network msg => msg

/-- The result of one exchange on the underlying transport: an error (Go
http.Client.Do returns a nil response on error), or a response that may be
nil or have a nil body. -/
inductive TransportResult where
  | err (e : SendErr)
  | ok (resp : Option Response)

/-- sendRequest: a send error wrapping a context-class cause is
non-retryable, any other send error is retryable, a nil response or nil
body is retryable, and otherwise the response is validated and its body
captured by prepareResponseBody. -/
def sendRequest (client : Client) (tr : TransportResult) :
    Option Response × Option DoError :=
  match tr with
  | .err e =>
      if e.wrapsCtxClass then (none, some (.nonRetryable e.message))
      else (none, some (.retryable ("unable to send request: " ++ e.message)))
  | .ok none => (none, some (.retryable "invalid response"))
  | .ok (some r) =>
      match r.body with
      | none => (some r, some (.retryable "invalid response"))
      | some b =>
          let pr := prepareResponseBody client r b
          (some pr.resp, pr.err)

/-- The environment of one Do call: the transport outcome of each attempt,
and whether each sleep completes before its governing context ends. -/
structure Env where
  transport : Nat → TransportResult
  requestDelayOk : Nat → Bool
  retryDelayOk : Nat → Bool

/-- resetRequestBody at a given attempt: invokes GetBody when set; the
capability installed by prepareRequestBody never fails, a caller-supplied
one may. -/
def resetOutcome (req : Request) (attempt : Nat) : Option DoError :=
  match req.getBody with
  | none => none
  | some cap =>
      match invokeCap cap attempt with
      | .ok _ => none
      | .error _ => some (.nonRetryable "unable to reset request body")

/-- The retry loop of Do: for attempt from 0 while attempt is at most
RetryCount, apply the fixed request delay, reset the request body, send;
on success or a non-retryable error return at once; on a retryable error
with attempts remaining apply the retry delay and continue, otherwise fall
out of the loop with the last response and error. The fuel argument is the
number of remaining iterations. The triple returned is (response, error,
number of transport sends). -/
def doLoop (client : Client) (env : Env) (req : Request) :
    Nat → Nat → Nat → Option Response → Option DoError →
    Option Response × Option DoError × Nat
  | 0, _, sends, resp, err => (resp, err, sends)
  | fuel + 1, attempt, sends, resp, _ =>
      if env.requestDelayOk attempt = false then
        (resp, some (.nonRetryable "context error"), sends)
      else
        match resetOutcome req attempt with
        | some e => (resp, some e, sends)
        | none =>
            match sendRequest client (env.transport attempt) with
            | (resp1, none) => (resp1, none, sends + 1)
            | (resp1, some e) =>
                if e.isRetryable = false then (resp1, some e, sends + 1)
                else if fuel = 0 then (resp1, some e, sends + 1)
                else if env.retryDelayOk attempt = false then
                  (resp1, some (.nonRetryable "context error"), sends + 1)
                else doLoop client env req fuel (attempt + 1) (sends + 1)
                  resp1 (some e)

/-- Do: prepare the request body once, then run the retry loop with
RetryCount + 1 iterations (none when RetryCount is negative). Returns the
final response, the final error, and the number of transport sends. -/
def Do (client : Client) (env : Env) (request : Option Request) :
    Option Response × Option DoError × Nat :=
  let pr := prepareRequestBody client request
  match pr.err, pr.req with
  | some e, _ => (none, some e, 0)
  | none, some req1 =>
      doLoop client env req1 (client.RetryCount + 1).toNat 0 0 none none
  | none, none => (none, none, 0)

/-- A client with every field zero, as new(Client) in the tests. -/
def zeroClient : Client := ⟨[], 0, 0, 0, 0, 0, 0, 0, 0, 0, 0⟩

/-- A client whose retryable set is the single status 503. -/
def clientR503 : Client := { zeroClient with RetryStatus := [503] }

/-- The scenario client of the Do test: one retry, 200 retryable. -/
def client200 : Client := { zeroClient with RetryCount := 1, RetryStatus := [200] }

/-- A client with a response size ceiling of one byte and 200 retryable. -/
def clientSize1 : Client := { zeroClient with ResponseSize := 1, RetryStatus := [200] }

/-- A client with only a response size ceiling of one byte. -/
def clientRS1 : Client := { zeroClient with ResponseSize := 1 }

/-- A client with a request size ceiling of two bytes. -/
def clientReq2 : Client := { zeroClient with RequestSize := 2 }

/-- A client with a negative retry count. -/
def clientNeg : Client := { zeroClient with RetryCount := -1 }

/-- A client with a sub-1 retry multiplier and a nonzero base delay. -/
def clientMult : Client :=
  { zeroClient with RetryDelay := 500, RetryMultiplier := 1 / 2, RetryJitter := 1 / 2 }

/-- A 200 response whose body stream holds the bytes of "hi". -/
def resp200 : Response := ⟨200, none, 0, some (.stream ⟨[104, 105], false⟩)⟩

/-- A bare 503 response. -/
def resp503 : Response := ⟨503, none, 0, none⟩

/-- A bare 200 response (nil body). -/
def respNB : Response := ⟨200, none, 0, none⟩

/-- A response carrying the header value "-1" for Retry-After. -/
def respNeg : Response := ⟨200, some "-1", 0, none⟩

/-- A response carrying the header value "7" for Retry-After. -/
def resp7 : Response := ⟨200, some "7", 0, none⟩

/-- A response carrying a non-numeric Retry-After header value. -/
def respWord : Response := ⟨200, some "xyz", 0, none⟩

/-- A two-byte clean body stream. -/
def bodyAB : Body := .stream ⟨[1, 2], false⟩

/-- A three-byte clean body stream, the bytes of "xyz". -/
def bodyXYZ : Body := .stream ⟨[120, 121, 122], false⟩

/-- A body stream that fails on the first read. -/
def failBody : Body := .stream ⟨[], true⟩

/-- The environment of the scenario test: every attempt completes the
exchange with the 200 response; every sleep completes. -/
def env200 : Env := ⟨fun _ => .ok (some resp200), fun _ => true, fun _ => true⟩

/-- A request carrying no body. -/
def emptyRequest : Request := ⟨none, none, 0⟩

/-- A request whose body is "xyz" with no regeneration capability. -/
def reqXYZ : Request := ⟨some bodyXYZ, none, 0⟩

/-- A request that already carries a regeneration capability. -/
def reqWithCap : Request := ⟨some bodyXYZ, some (.installed [9]), 5⟩

/-- A date-parse oracle that never recognizes a date. -/
def noDate : String → Option Int := fun _ => none

/-- A date-parse oracle that parses every header to the instant sixty
seconds past epoch zero. -/
def dateOracle60 : String → Option Int := fun _ => some 60000000000

/-- On a body stream with no read error, the error of prepareResponseBody
is decided by the retryable set, then the 400 threshold, then the size
ceiling, and the size printed on a violation is the full stream length. -/
theorem prepareResponseBody_clean_err (client : Client) (response : Response)
    (body : Body) (hclean : body.toStream.failAtEnd = false) :
    (prepareResponseBody client response body).err =
      if response.statusCode ∈ client.RetryStatus then
        some (.retryable (statusMsg response.statusCode))
      else if 400 ≤ response.statusCode then
        some (.nonRetryable (statusMsg response.statusCode))
      else if 0 < client.ResponseSize ∧
          client.ResponseSize < (body.toStream.content.length : Int) then
        some (.nonRetryable (responseSizeMsg (body.toStream.content.length : Int)))
      else none := by
  rcases hs : body.toStream with ⟨content, fail⟩
  rw [hs] at hclean
  obtain rfl : fail = false := hclean
  by_cases hcs : 0 < client.ResponseSize
  · by_cases hn : client.ResponseSize.toNat ≤ content.length
    · have hsz : ((content.length - client.ResponseSize.toNat : Nat) : Int)
          + client.ResponseSize = (content.length : Int) := by omega
      simp only [prepareResponseBody, hs, limitOf, if_pos hcs, readAllLim,
        if_pos hn, drainStream, Bool.false_eq_true, if_false, List.length_drop,
        hsz]
      have hlt : client.ResponseSize < (content.length : Int) ↔
          0 < client.ResponseSize ∧ client.ResponseSize < (content.length : Int) := by
        constructor
        · exact fun h => ⟨hcs, h⟩
        · exact fun h => h.2
      split_ifs with h1 h2 h3 <;> simp_all
    · simp only [prepareResponseBody, hs, limitOf, if_pos hcs, readAllLim,
        if_neg hn, Bool.false_eq_true, if_false, drainStream]
      have hlen : (content.length : Int) < client.ResponseSize := by omega
      split_ifs with h1 h2 h3 <;> simp_all <;> omega
  · simp only [prepareResponseBody, hs, limitOf, if_neg hcs, readAllLim,
      Bool.false_eq_true, if_false, drainStream]
    split_ifs with h1 h2 h3 <;> simp_all <;> omega

/-- C1: for every response handed to the validator with a cleanly readable
body, classification follows this order: a status code in the configured
retryable set gives a retryable failure even when it is at least 400;
otherwise a status code of at least 400 gives a non-retryable failure;
otherwise a size ceiling violation gives a non-retryable failure;
otherwise there is no error. -/
theorem prepareResponseBody_classification (client : Client) (response : Response)
    (body : Body) (hclean : body.toStream.failAtEnd = false) :
    (response.statusCode ∈ client.RetryStatus →
      (prepareResponseBody client response body).err =
        some (.retryable (statusMsg response.statusCode))) ∧
    (response.statusCode ∉ client.RetryStatus → 400 ≤ response.statusCode →
      (prepareResponseBody client response body).err =
        some (.nonRetryable (statusMsg response.statusCode))) ∧
    (response.statusCode ∉ client.RetryStatus → response.statusCode < 400 →
      0 < client.ResponseSize →
      client.ResponseSize < (body.toStream.content.length : Int) →
      (prepareResponseBody client response body).err =
        some (.nonRetryable (responseSizeMsg (body.toStream.content.length : Int)))) ∧
    (response.statusCode ∉ client.RetryStatus → response.statusCode < 400 →
      ¬(0 < client.ResponseSize ∧
        client.ResponseSize < (body.toStream.content.length : Int)) →
      (prepareResponseBody client response body).err = none) := by
  rw [prepareResponseBody_clean_err client response body hclean]
  refine ⟨fun h1 => by rw [if_pos h1], fun h1 h2 => ?_, fun h1 h2 h3 h4 => ?_,
    fun h1 h2 h3 => ?_⟩
  · rw [if_neg h1, if_pos h2]
  · rw [if_neg h1, if_neg (by omega), if_pos ⟨h3, h4⟩]
  · rw [if_neg h1, if_neg (by omega), if_neg h3]

/-- Witness for C1: a 503 response against a client whose retryable set is
exactly the status 503 is classified as a retryable failure. -/
theorem prepareResponseBody_classification_witness :
    (prepareResponseBody clientR503 resp503 bodyAB).err =
      some (.retryable (statusMsg 503)) :=
  (prepareResponseBody_classification clientR503 resp503 bodyAB rfl).1 (by decide)

/-- C3 counterexample: when the initial body read fails, prepareResponseBody
returns the read error but leaves the response body unreplaced (the
original stream, not an in-memory reader), so not every error outcome
leaves a re-readable in-memory body; the original is still closed once. -/
theorem prepareResponseBody_readError_counterexample :
    (prepareResponseBody zeroClient respNB failBody).err =
      some (.retryable "unable to read response body") ∧
    isBufferBody (prepareResponseBody zeroClient respNB failBody).resp.body = false ∧
    (prepareResponseBody zeroClient respNB failBody).closedOrig = 1 :=
  ⟨rfl, rfl, rfl⟩

/-- C3 (amended): prepareResponseBody always closes the original stream
exactly once, and on every outcome where the initial bounded read succeeds
(success, drain error, retryable or fatal status, size violation) it
replaces the response body with an in-memory reader over the captured
bytes and records the captured length as the content length; on an initial
read failure the body is closed but not replaced. -/
theorem prepareResponseBody_bodyReplacement (client : Client)
    (response : Response) (body : Body) :
    (prepareResponseBody client response body).closedOrig = 1 ∧
    (∀ buffer s1,
      readAllLim (limitOf client.ResponseSize) body.toStream = (.ok buffer, s1) →
      (prepareResponseBody client response body).resp.body =
        some (.buffer buffer) ∧
      (prepareResponseBody client response body).resp.contentLength =
        (buffer.length : Int)) := by
  rcases h : readAllLim (limitOf client.ResponseSize) body.toStream with ⟨res, s1⟩
  rcases res with e | buffer
  · constructor
    · simp [prepareResponseBody, h]
    · intro buffer s2 hok
      simp at hok
  · rcases hd : drainStream s1 with ⟨dres, s2⟩
    constructor
    · rcases dres with e | drained <;>
        simp [prepareResponseBody, h, hd] <;> split_ifs <;> rfl
    · intro buffer2 s3 hok
      simp only [Prod.mk.injEq, Except.ok.injEq] at hok
      obtain ⟨rfl, rfl⟩ := hok
      rcases dres with e | drained <;>
        simp [prepareResponseBody, h, hd] <;> split_ifs <;> simp

/-- Witness for the amended C3: a clean two-byte body is captured, the body
is replaced with the in-memory reader, and the original is closed once. -/
theorem prepareResponseBody_bodyReplacement_witness :
    (prepareResponseBody zeroClient respNB bodyAB).closedOrig = 1 ∧
    (prepareResponseBody zeroClient respNB bodyAB).resp.body =
      some (.buffer [1, 2]) :=
  ⟨(prepareResponseBody_bodyReplacement zeroClient respNB bodyAB).1,
   ((prepareResponseBody_bodyReplacement zeroClient respNB bodyAB).2 [1, 2]
      ⟨[], false⟩ rfl).1⟩

/-- C5 counterexample: with a one-byte response ceiling, a three-byte clean
body and status 200 in the retryable set, the outcome is classified
retryable although the size ceiling is violated: the retryable-status rule
precedes the size rule, so a size violation is not unconditionally fatal. -/
theorem prepareResponseBody_sizeViolation_counterexample :
    0 < clientSize1.ResponseSize ∧
    clientSize1.ResponseSize < (3 : Int) ∧
    (prepareResponseBody clientSize1 respNB bodyXYZ).err =
      some (.retryable (statusMsg 200)) :=
  ⟨by decide, by decide, rfl⟩

/-- C5 (amended): a size ceiling violation on a cleanly read body is
classified non-retryable provided the status code is not in the retryable
set; when it is in the set, the retryable-status rule takes precedence. -/
theorem prepareResponseBody_sizeViolation_fatal (client : Client)
    (response : Response) (body : Body)
    (hclean : body.toStream.failAtEnd = false)
    (hmem : response.statusCode ∉ client.RetryStatus)
    (hpos : 0 < client.ResponseSize)
    (hsize : client.ResponseSize < (body.toStream.content.length : Int)) :
    ∃ msg, (prepareResponseBody client response body).err =
      some (.nonRetryable msg) := by
  rw [prepareResponseBody_clean_err client response body hclean]
  by_cases h4 : 400 ≤ response.statusCode
  · exact ⟨statusMsg response.statusCode, by rw [if_neg hmem, if_pos h4]⟩
  · exact ⟨responseSizeMsg (body.toStream.content.length : Int),
      by rw [if_neg hmem, if_neg h4, if_pos ⟨hpos, hsize⟩]⟩

/-- Witness for the amended C5: one-byte ceiling, three-byte body, status
200 not in the (empty) retryable set gives a non-retryable failure. -/
theorem prepareResponseBody_sizeViolation_fatal_witness :
    ∃ msg, (prepareResponseBody clientRS1 respNB bodyXYZ).err =
      some (.nonRetryable msg) :=
  prepareResponseBody_sizeViolation_fatal clientRS1 respNB bodyXYZ rfl
    (by decide) (by decide) (by decide)

/-- C4 counterexample: the header value "-1" parses as the integer -1 (the
Go integer parser accepts a sign), so parseRetryDelay returns a negative
one-second duration rather than the zero no-directive value the claim
assigns to negative integers. -/
theorem parseRetryDelay_negative_counterexample :
    parseRetryDelay noDate 0 (some respNeg) = -1000000000 ∧
    parseRetryDelay noDate 0 (some respNeg) ≠ 0 :=
  ⟨rfl, by decide⟩

/-- C4 (amended): parseRetryDelay returns the Go duration of n seconds (n
times ten to the ninth nanoseconds, wrapped to 64 bits) whenever the
header parses as a signed 64-bit decimal integer n, including negative n,
which yields a negative duration; when the header instead parses as an RFC
1123 date it returns the duration from now until that date; a nil
response, an absent or empty header, or any other form yields zero. -/
theorem parseRetryDelay_spec (parseDate : String → Option Int) (now : Int)
    (r : Response) :
    parseRetryDelay parseDate now none = 0 ∧
    (r.retryAfter = none → parseRetryDelay parseDate now (some r) = 0) ∧
    (r.retryAfter = some "" → parseRetryDelay parseDate now (some r) = 0) ∧
    (∀ header n, r.retryAfter = some header → parseInt64 header = some n →
      parseRetryDelay parseDate now (some r) = wrap64 (n * 1000000000)) ∧
    (∀ header date, r.retryAfter = some header → header ≠ "" →
      parseInt64 header = none → parseDate header = some date →
      parseRetryDelay parseDate now (some r) = date - now) ∧
    (∀ header, r.retryAfter = some header →
      parseInt64 header = none → parseDate header = none →
      parseRetryDelay parseDate now (some r) = 0) := by
  refine ⟨rfl, ?_, ?_, ?_, ?_, ?_⟩
  · intro h
    simp [parseRetryDelay, h]
  · intro h
    simp [parseRetryDelay, h]
  · intro header n h hp
    have hne : header ≠ "" := by
      intro he
      rw [he] at hp
      exact Option.noConfusion hp
    simp [parseRetryDelay, h, hne, hp]
  · intro header date h hne hp hd
    simp [parseRetryDelay, h, hne, hp, hd]
  · intro header h hp hd
    by_cases hne : header = ""
    · simp [parseRetryDelay, h, hne]
    · simp [parseRetryDelay, h, hne, hp, hd]

/-- Witness for the amended C4: the header "7" gives seven seconds as a Go
duration, and a non-numeric header under a date oracle gives the duration
from now until the parsed date. -/
theorem parseRetryDelay_spec_witness :
    parseRetryDelay noDate 0 (some resp7) = wrap64 (7 * 1000000000) ∧
    parseRetryDelay dateOracle60 0 (some respWord) = 60000000000 - 0 :=
  ⟨(parseRetryDelay_spec noDate 0 resp7).2.2.2.1 "7" 7 rfl rfl,
   (parseRetryDelay_spec dateOracle60 0 respWord).2.2.2.2.1 "xyz" 60000000000
     rfl (by decide) rfl rfl⟩

/-- C6: on a retryable failure the orchestrator requests a fixed sleep of
exactly the parsed positive server-directed delay with zero jitter, and
otherwise an exponential backoff of the base delay with the multiplier
clamped below by one and the configured jitter, whose jitter-free nominal
duration is the base times the clamped multiplier to the attempt power. -/
theorem applyRetryDelay_policy (client : Client)
    (parseDate : String → Option Int) (now : Int)
    (response : Option Response) (attempt : Nat) :
    (0 < parseRetryDelay parseDate now response →
      applyRetryDelay client parseDate now response attempt =
        .fixedJitter (parseRetryDelay parseDate now response) 0 ∧
      nominalSleep (applyRetryDelay client parseDate now response attempt) =
        (parseRetryDelay parseDate now response : Rat) ∧
      sleepJitter (applyRetryDelay client parseDate now response attempt) = 0) ∧
    (parseRetryDelay parseDate now response ≤ 0 →
      applyRetryDelay client parseDate now response attempt =
        .expBackoff client.RetryDelay (max client.RetryMultiplier 1)
          client.RetryJitter attempt ∧
      nominalSleep (applyRetryDelay client parseDate now response attempt) =
        (client.RetryDelay : Rat) * (max client.RetryMultiplier 1) ^ attempt ∧
      sleepJitter (applyRetryDelay client parseDate now response attempt) =
        client.RetryJitter) := by
  constructor
  · intro h
    simp [applyRetryDelay, h, nominalSleep, sleepJitter]
  · intro h
    have h2 : ¬0 < parseRetryDelay parseDate now response := not_lt.mpr h
    simp [applyRetryDelay, h2, nominalSleep, sleepJitter]

/-- Witness for C6: a seven-second server delay gives a fixed sleep with
zero jitter; no directive under a half multiplier gives an exponential
backoff with the multiplier clamped to one. -/
theorem applyRetryDelay_policy_witness :
    applyRetryDelay zeroClient noDate 0 (some resp7) 0 =
      .fixedJitter (parseRetryDelay noDate 0 (some resp7)) 0 ∧
    applyRetryDelay clientMult noDate 0 none 3 =
      .expBackoff clientMult.RetryDelay (max clientMult.RetryMultiplier 1)
        clientMult.RetryJitter 3 :=
  ⟨((applyRetryDelay_policy zeroClient noDate 0 (some resp7) 0).1 (by decide)).1,
   ((applyRetryDelay_policy clientMult noDate 0 none 3).2 (by decide)).1⟩

/-- C7: with a positive request size ceiling, preparing a clean request
body longer than the ceiling fails non-retryably with a message naming the
actual total observed size (captured plus drained), and a body within the
ceiling prepares without error. -/
theorem prepareRequestBody_sizeCeiling (client : Client) (bytes : List Nat)
    (cl : Int) (hpos : 0 < client.RequestSize) :
    (client.RequestSize < (bytes.length : Int) →
      (prepareRequestBody client
          (some ⟨some (.stream ⟨bytes, false⟩), none, cl⟩)).err =
        some (.nonRetryable (requestSizeMsg (bytes.length : Int)))) ∧
    ((bytes.length : Int) ≤ client.RequestSize →
      (prepareRequestBody client
          (some ⟨some (.stream ⟨bytes, false⟩), none, cl⟩)).err = none) := by
  constructor
  · intro hlen
    have hn : client.RequestSize.toNat ≤ bytes.length := by omega
    have hsz : ((bytes.length - client.RequestSize.toNat : Nat) : Int)
        + client.RequestSize = (bytes.length : Int) := by omega
    simp only [prepareRequestBody, Body.toStream, limitOf, if_pos hpos,
      readAllLim, if_pos hn, drainStream, Bool.false_eq_true, if_false,
      List.length_drop, hsz]
    rw [if_pos ⟨hpos, hlen⟩]
  · intro hlen
    by_cases hn : client.RequestSize.toNat ≤ bytes.length
    · simp only [prepareRequestBody, Body.toStream, limitOf, if_pos hpos,
        readAllLim, if_pos hn, drainStream, Bool.false_eq_true, if_false,
        List.length_drop]
      rw [if_neg (by omega)]
    · simp only [prepareRequestBody, Body.toStream, limitOf, if_pos hpos,
        readAllLim, if_neg hn, drainStream, Bool.false_eq_true, if_false,
        List.length_nil]
      rw [if_neg (by omega)]

/-- Witness for C7: ceiling two, a three-byte body fails naming size three,
and a two-byte body prepares cleanly. -/
theorem prepareRequestBody_sizeCeiling_witness :
    (prepareRequestBody clientReq2
        (some ⟨some (.stream ⟨[1, 2, 3], false⟩), none, 0⟩)).err =
      some (.nonRetryable (requestSizeMsg 3)) ∧
    (prepareRequestBody clientReq2
        (some ⟨some (.stream ⟨[1, 2], false⟩), none, 0⟩)).err = none :=
  ⟨(prepareRequestBody_sizeCeiling clientReq2 [1, 2, 3] 0 (by decide)).1
      (by decide),
   (prepareRequestBody_sizeCeiling clientReq2 [1, 2] 0 (by decide)).2
      (by decide)⟩

/-- C8: prepareRequestBody is a no-op when the request carries no body or
already carries a regeneration capability; otherwise, whenever preparation
succeeds, the original stream has been closed exactly once and the
installed capability returns the captured buffer byte-identically on every
invocation, with the body and the content length set from that buffer. -/
theorem prepareRequestBody_noopAndReplay (client : Client) (req : Request) :
    (req.body = none →
      prepareRequestBody client (some req) = ⟨none, some req, 0⟩) ∧
    (req.getBody.isSome = true →
      prepareRequestBody client (some req) = ⟨none, some req, 0⟩) ∧
    (∀ b, req.body = some b → req.getBody = none →
      (prepareRequestBody client (some req)).err = none →
      ∃ buffer,
        (prepareRequestBody client (some req)).req =
          some ⟨some (.buffer buffer), some (.installed buffer),
            (buffer.length : Int)⟩ ∧
        (prepareRequestBody client (some req)).closedOrig = 1 ∧
        ∀ n, invokeCap (.installed buffer) n = .ok buffer) := by
  obtain ⟨bo, gbo, cl⟩ := req
  refine ⟨?_, ?_, ?_⟩
  · rintro rfl
    cases gbo <;> rfl
  · intro hgb
    cases gbo with
    | none => simp at hgb
    | some cap => cases bo <;> rfl
  · intro b hb hgb herr
    simp only at hb hgb
    subst hb
    subst hgb
    rcases h : readAllLim (limitOf client.RequestSize) b.toStream with ⟨res, s1⟩
    rcases res with e | buffer
    · simp [prepareRequestBody, h] at herr
    · rcases hd : drainStream s1 with ⟨dres, s2⟩
      rcases dres with e | drained
      · simp [prepareRequestBody, h, hd] at herr
      · by_cases hc : 0 < client.RequestSize ∧ 0 < drained
        · simp [prepareRequestBody, h, hd, hc] at herr
        · exact ⟨buffer, by simp [prepareRequestBody, h, hd, hc], by
            simp [prepareRequestBody, h, hd, hc], fun n => rfl⟩

/-- Witness for C8: a bodyless request is untouched, and the "xyz" body is
captured into a capability that replays those bytes on every invocation
with the original stream closed once. -/
theorem prepareRequestBody_noopAndReplay_witness :
    prepareRequestBody zeroClient (some emptyRequest) =
      ⟨none, some emptyRequest, 0⟩ ∧
    ∃ buffer,
      (prepareRequestBody zeroClient (some reqXYZ)).req =
        some ⟨some (.buffer buffer), some (.installed buffer),
          (buffer.length : Int)⟩ ∧
      (prepareRequestBody zeroClient (some reqXYZ)).closedOrig = 1 ∧
      ∀ n, invokeCap (.installed buffer) n = .ok buffer :=
  ⟨(prepareRequestBody_noopAndReplay zeroClient emptyRequest).1 rfl,
   (prepareRequestBody_noopAndReplay zeroClient reqXYZ).2.2 bodyXYZ rfl rfl rfl⟩

/-- C9 counterexample: a send error raised by the per-attempt timeout is
not the outer bounded context ending, yet sendRequest classifies it
non-retryable, because the code inspects only the error value and both
timeout scopes surface the same context-class cause. -/
theorem sendRequest_attemptTimeout_counterexample :
    sendRequest zeroClient (.err .attemptDeadline) =
      (none, some (.nonRetryable "context deadline exceeded")) ∧
    (DoError.nonRetryable "context deadline exceeded").isRetryable = false :=
  ⟨rfl, rfl⟩

/-- C9 (amended): a transport send error wrapping a context-class cause,
whether the outer context ended or the per-attempt timeout fired, is
classified non-retryable; every other transport send error, a nil
response, and a response with a nil body are classified retryable. -/
theorem sendRequest_classification (client : Client) (e : SendErr)
    (r : Response) :
    (e.wrapsCtxClass = true →
      sendRequest client (.err e) = (none, some (.nonRetryable e.message))) ∧
    (e.wrapsCtxClass = false →
      sendRequest client (.err e) =
        (none, some (.retryable ("unable to send request: " ++ e.message)))) ∧
    sendRequest client (.ok none) =
      (none, some (.retryable "invalid response")) ∧
    (r.body = none →
      sendRequest client (.ok (some r)) =
        (some r, some (.retryable "invalid response"))) := by
  refine ⟨?_, ?_, rfl, ?_⟩
  · intro h
    simp [sendRequest, h]
  · intro h
    simp [sendRequest, h]
  · intro h
    obtain ⟨sc, ra, cl, bo⟩ := r
    simp only at h
    subst h
    rfl

/-- Witness for the amended C9: outer cancellation is non-retryable, a
plain network failure is retryable, and a bodyless response is retryable. -/
theorem sendRequest_classification_witness :
    sendRequest zeroClient (.err .outerCanceled) =
      (none, some (.nonRetryable "context canceled")) ∧
    sendRequest zeroClient (.err (.network "boom")) =
      (none, some (.retryable ("unable to send request: " ++ "boom"))) ∧
    sendRequest zeroClient (.ok (some respNB)) =
      (some respNB, some (.retryable "invalid response")) :=
  ⟨(sendRequest_classification zeroClient .outerCanceled respNB).1 rfl,
   (sendRequest_classification zeroClient (.network "boom") respNB).2.1 rfl,
   (sendRequest_classification zeroClient .outerCanceled respNB).2.2.2 rfl⟩

/-- The retry loop performs at most one transport send per remaining
iteration. -/
theorem doLoop_sends_le (client : Client) (env : Env) (req : Request) :
    ∀ fuel attempt sends resp err,
      (doLoop client env req fuel attempt sends resp err).2.2 ≤ sends + fuel := by
  intro fuel
  induction fuel with
  | zero =>
      intro attempt sends resp err
      simp [doLoop]
  | succ n ih =>
      intro attempt sends resp err
      simp only [doLoop]
      repeat' split
      all_goals try simp
      all_goals try omega
      all_goals exact le_trans (ih _ _ _ _) (by omega)

/-- C2: every Do call performs at most RetryCount + 1 transport sends and
the loop is bounded, and in the test scenario (one retry, 200 retryable,
endpoint always answering 200 with a two-byte body) exactly two sends
happen and Do returns the last response, its body captured in memory,
together with a retryable error naming status 200. -/
theorem Do_sendBound_and_scenario :
    (∀ (client : Client) (env : Env) (request : Option Request),
      (Do client env request).2.2 ≤ (client.RetryCount + 1).toNat) ∧
    Do client200 env200 (some emptyRequest) =
      (some ⟨200, none, 2, some (.buffer [104, 105])⟩,
       some (.retryable (statusMsg 200)), 2) := by
  constructor
  · intro client env request
    rcases h : prepareRequestBody client request with ⟨e, rq, closed⟩
    rcases e with _ | e
    · rcases rq with _ | req1
      · simp [Do, h]
      · simpa [Do, h] using
          doLoop_sends_le client env req1 ((client.RetryCount + 1).toNat)
            0 0 none none
    · simp [Do, h]
  · rfl

/-- On a non-nil request, prepareRequestBody always returns a request. -/
theorem prepareRequestBody_req_isSome (client : Client) (req : Request) :
    ((prepareRequestBody client (some req)).req).isSome = true := by
  obtain ⟨bo, gbo, cl⟩ := req
  rcases bo with _ | b
  · cases gbo <;> rfl
  · rcases gbo with _ | cap
    · rcases h : readAllLim (limitOf client.RequestSize) b.toStream with ⟨res, s1⟩
      rcases res with e | buffer
      · simp [prepareRequestBody, h]
      · rcases hd : drainStream s1 with ⟨dres, s2⟩
        rcases dres with e | drained <;> simp [prepareRequestBody, h, hd] <;>
          split_ifs <;> rfl
    · rfl

/-- C10: with a negative RetryCount and a request that passes body
preparation, Do executes zero loop iterations, touches neither the delay
provider nor the transport, and returns a nil response together with a nil
error and zero sends, in every environment. -/
theorem Do_negativeRetryCount (client : Client) (env : Env) (req : Request)
    (hneg : client.RetryCount < 0)
    (hok : (prepareRequestBody client (some req)).err = none) :
    Do client env (some req) = (none, none, 0) := by
  have hfuel : (client.RetryCount + 1).toNat = 0 := by omega
  have hsome := prepareRequestBody_req_isSome client req
  rcases h : prepareRequestBody client (some req) with ⟨e, rq, closed⟩
  rw [h] at hok hsome
  simp only at hok hsome
  subst hok
  rcases rq with _ | req1
  · simp at hsome
  · simp only [Do, h, hfuel, doLoop]

/-- Witness for C10: RetryCount -1 with a bodyless request returns nil
response, nil error, and zero sends. -/
theorem Do_negativeRetryCount_witness :
    Do clientNeg env200 (some emptyRequest) = (none, none, 0) :=
  Do_negativeRetryCount clientNeg env200 emptyRequest (by decide) rfl

end Retryable
